import Mathlib

/-!
Verification of the reconciliation loop of `pivpn_reporter.py`
(class `MqttPublishingClient`, abbreviated MPC below).

The Python source is shallowly embedded: pure computations become Lean
functions, the side-effecting publish calls become explicit event traces,
Python exceptions (`IndexError`, `ValueError`) become an `Except PyErr`
result, and the external commands (`pivpn -l`, `pivpn -c | grep NAME`)
become explicit inputs (a token list / a per-client record function).
Python's float division in `get_client_list` is embedded as exact `ℚ`
division: for every token count small enough to be represented exactly
(all realistic outputs), the float comparison `x < client_count` agrees
with the exact rational comparison, because `client_count` is a multiple
of `1/7` (resp. `1/5`) and `x` is a small integer.
-/

/-- Python exceptions that the embedded code can raise. -/
inductive PyErr
  | indexError (i : ℕ)
  | valueError (msg : String)
deriving DecidableEq, Repr

/-- Value published on an `attr` topic: either a raw string (the initial
value of the Python variable `data`, an empty string) or a JSON object,
kept as its ordered field list (`json.dumps` preserves insertion order). -/
inductive AttrVal
  | raw (s : String)
  | obj (fields : List (String × String))
deriving DecidableEq, Repr

/-- One observable action of the MPC, in program order. -/
inductive Event
  | register (c : String)                      -- publish_discovery(c)
  | retract (c : String)                       -- remove_discovery(c)
  | pubAttr (c : String) (payload : AttrVal)   -- publish to {topic_prefix}{c}/attr
  | pubState (c : String) (payload : String)   -- publish to {topic_prefix}{c}/state
  | pubStatus (payload : String)               -- publish to {topic_prefix}status
  | timerStart                                 -- start_period_timer()
  | loopStop                                   -- self.client.loop_stop()
  | exit (code : ℕ)                            -- sys.exit(code)
deriving DecidableEq, Repr

/-- A single MQTT publish, as performed by `remove_discovery`. -/
structure PubMsg where
  topic : String
  payload : String
  qos : ℕ
  retain : Bool
deriving DecidableEq, Repr

/-- Python `record[i]`: the token at index `i`, or an `IndexError`. -/
def idx (record : List String) (i : ℕ) : Except PyErr String :=
  match record.get? i with
  | some s => Except.ok s
  | none => Except.error (PyErr.indexError i)

/-- The `while x < client_count` loop of `get_client_list`
(src/pivpn_reporter.py lines 186-193 and 197-204): starting from loop
counter `x` and token index `pos`, append `raw[pos]` and advance
`pos` by `stride` while `x < count`.  `count` is the Python float
`(len(raw) - header) / stride`, embedded exactly as a rational. -/
def collectClients (raw : List String) (count : ℚ) (stride : ℕ) (x pos : ℕ) :
    Except PyErr (List String) :=
  if h : (x : ℚ) < count then
    match raw.get? pos with
    | none => Except.error (PyErr.indexError pos)
    | some name => (collectClients raw count stride (x + 1) (pos + stride)).map (name :: ·)
  else Except.ok []
termination_by ⌈count⌉.toNat - x
decreasing_by
  have h1 : (x : ℤ) < ⌈count⌉ := Int.lt_ceil.mpr (by exact_mod_cast h)
  have h2 : x < ⌈count⌉.toNat := Int.lt_toNat.mpr h1
  omega

/-- `MqttPublishingClient.get_client_list` (lines 173-209): tokenized
output of the listing command to the ordered list of client names.
WireGuard: `client_count = (len - 13) / 7`, names at 9, 16, 23, ...;
OpenVPN: `client_count = (len - 27) / 5`, names at 28, 33, 38, ...;
any other `vpn_type` raises `ValueError`. -/
def getClientList (vpn : String) (raw : List String) : Except PyErr (List String) :=
  if vpn = "WireGuard" then
    collectClients raw (((raw.length : ℚ) - 13) / 7) 7 0 9
  else if vpn = "OpenVPN" then
    collectClients raw (((raw.length : ℚ) - 27) / 5) 5 0 28
  else
    Except.error (PyErr.valueError ("Invalid VPN type: " ++ vpn))

/-- `new_clients = [i for i in self.client_list if i not in stored_client_list]`
(line 157); `stored` is the previous snapshot, `cur` the current one. -/
def newClients (stored cur : List String) : List String :=
  cur.filter (fun i => decide (i ∉ stored))

/-- `removed_clients = [i for i in stored_client_list if i not in self.client_list]`
(line 161). -/
def removedClients (stored cur : List String) : List String :=
  stored.filter (fun i => decide (i ∉ cur))

/-- Body of the per-client loop of `publish_client_attributes`
(lines 244-280): from the tokenized `pivpn -c | grep name` record and the
values `(data, state)` left over from the previous loop iteration,
compute the pair to publish, or the `IndexError` Python would raise.
Indices are read in Python's evaluation order. -/
def clientAttrStep (vpn name : String) (record : List String)
    (prev : AttrVal × String) : Except PyErr (AttrVal × String) :=
  if vpn = "WireGuard" then do
    let r5 ← idx record 5
    if r5 = "(not" then do
      let r0 ← idx record 0
      let r1 ← idx record 1
      let r2 ← idx record 2
      let r3 ← idx record 3
      let r4 ← idx record 4
      let r6 ← idx record 6
      pure (AttrVal.obj [("client", r0), ("remote_ip", r1), ("local_ip", r2),
              ("received", r3), ("sent", r4), ("seen", r5 ++ " " ++ r6)],
            r5 ++ " " ++ r6)
    else do
      let r0 ← idx record 0
      let r1 ← idx record 1
      let r2 ← idx record 2
      let r3 ← idx record 3
      let r4 ← idx record 4
      let r6 ← idx record 6
      let r7 ← idx record 7
      let r8 ← idx record 8
      let r9 ← idx record 9
      pure (AttrVal.obj [("client", r0), ("remote_ip", r1), ("local_ip", r2),
              ("received", r3), ("sent", r4),
              ("seen", r5 ++ " " ++ r6 ++ " " ++ r7 ++ " " ++ r8 ++ " " ++ r9)],
            r5 ++ " " ++ r6 ++ " " ++ r7 ++ " " ++ r8 ++ " " ++ r9)
  else if vpn = "OpenVPN" then
    if record.length = 0 then
      pure (AttrVal.obj [("client", name), ("remote_ip", ""), ("local_ip", ""),
              ("received", ""), ("sent", ""), ("seen", "")],
            "Not Connected")
    else do
      let r0 ← idx record 0
      let r1 ← idx record 1
      let r2 ← idx record 2
      let r3 ← idx record 3
      let r4 ← idx record 4
      let r5 ← idx record 5
      let r6 ← idx record 6
      let r7 ← idx record 7
      let r8 ← idx record 8
      let r9 ← idx record 9
      pure (AttrVal.obj [("client", r0), ("remote_ip", r1), ("virtual_ip", r2),
              ("received", r3), ("sent", r4),
              ("connected_since", r5 ++ " " ++ r6 ++ " " ++ r7 ++ " " ++ r8 ++ " " ++ r9)],
            r5 ++ " " ++ r6 ++ " " ++ r7 ++ " " ++ r8 ++ " " ++ r9)
  else
    pure prev

/-- The `for client_name in self.client_list` loop of
`publish_client_attributes` (lines 244-284), threading `(data, state)`
through the iterations; `attrOf` supplies each client's tokenized
`pivpn -c | grep name` output.  Returns the publishes performed before
an uncaught `IndexError`, if any, aborted the loop. -/
def publishAttrsGo (vpn : String) (attrOf : String → List String) :
    List String → AttrVal × String → List Event × Option PyErr
  | [], _ => ([], none)
  | name :: rest, prev =>
    match clientAttrStep vpn name (attrOf name) prev with
    | Except.error e => ([], some e)
    | Except.ok (d, s) =>
      let r := publishAttrsGo vpn attrOf rest (d, s)
      (Event.pubAttr name d :: Event.pubState name s :: r.1, r.2)

/-- `publish_client_attributes` (lines 238-284): Python initializes
`data: str = ""` and `state: str = ""` before the loop. -/
def publishClientAttributesEvents (vpn : String) (attrOf : String → List String)
    (clients : List String) : List Event × Option PyErr :=
  publishAttrsGo vpn attrOf clients (AttrVal.raw "", "")

/-- `period_timeout_handler` (lines 140-171): one reconciliation cycle.
`stored` is the snapshot held before the cycle, `cur` the fresh snapshot.
If the two lists are `==`-equal nothing is registered or retracted;
otherwise every new client is registered and every removed client
retracted.  Then attributes are published for the full current list and,
if no exception aborted that, the timer is re-armed. -/
def reconcileDiscoveryEvents (stored cur : List String) : List Event :=
  if cur = stored then []
  else (newClients stored cur).map Event.register
        ++ (removedClients stored cur).map Event.retract

/-- Continuation of `period_timeout_handler`: after the discovery phase,
`publish_client_attributes()` runs for the full current list and, if no
exception aborted it, `start_period_timer()` re-arms the timer. -/
def periodTimeoutEvents (stored cur : List String) (vpn : String)
    (attrOf : String → List String) : List Event × Option PyErr :=
  match (publishAttrsGo vpn attrOf cur (AttrVal.raw "", "")).2 with
  | some e => (reconcileDiscoveryEvents stored cur
      ++ (publishAttrsGo vpn attrOf cur (AttrVal.raw "", "")).1, some e)
  | none => (reconcileDiscoveryEvents stored cur
      ++ (publishAttrsGo vpn attrOf cur (AttrVal.raw "", "")).1
      ++ [Event.timerStart], none)

/-- `on_connect` (lines 112-131).  With `rc = 0`: start the period timer,
publish retained "online" on the status topic, then publish discovery for
every client of the current `client_list`.  With `rc ≠ 0`: stop the MQTT
loop and `sys.exit(1)` (so the timer is never started). -/
def onConnectEvents (rc : ℕ) (clients : List String) : List Event :=
  if rc = 0 then
    Event.timerStart :: Event.pubStatus "online" :: clients.map Event.register
  else
    [Event.loopStop, Event.exit 1]

/-- Python `str.title()` restricted to ASCII letters: each maximal run of
letters starts uppercase and continues lowercase.  Used only for the
display `name` field of the discovery payload. -/
def pyTitle (s : String) : String :=
  ((s.data.foldl (fun (acc : List Char × Bool) ch =>
      if ch.isAlpha then
        (acc.1 ++ [if acc.2 then ch.toLower else ch.toUpper], true)
      else (acc.1 ++ [ch], false)) ([], false)).1).asString

/-- Discovery configuration payload built by `publish_discovery`
(lines 211-229), as its ordered JSON fields. -/
structure DiscoveryPayload where
  name : String
  unique_id : String
  state_topic : String
  availability_topic : String
  icon : String
  json_attributes_topic : String
  dev_identifiers : List String
  dev_manufacturer : String
  dev_name : String
deriving DecidableEq, Repr

/-- `{self.discovery_topic_prefix}{client_name}/config` (lines 214, 234):
the discovery topic, a direct concatenation with no separator added. -/
def discoveryTopic (discoveryPref client_name : String) : String :=
  discoveryPref ++ client_name ++ "/config"

/-- `publish_discovery` (lines 211-229): the topic published to and the
retained payload.  `tpf` is the (already slash-normalized) stored
`topic_prefix` field, `discoveryPref` the stored discovery prefix. -/
def publish_discovery (vpn_type tpf discoveryPref client_name : String) :
    String × DiscoveryPayload :=
  (discoveryTopic discoveryPref client_name,
   { name := "VPN Client " ++ pyTitle client_name
     unique_id := "VPN" ++ vpn_type ++ client_name ++ "Client"
     state_topic := tpf ++ client_name ++ "/state"
     availability_topic := tpf ++ "status"
     icon := "mdi:vpn"
     json_attributes_topic := tpf ++ client_name ++ "/attr"
     dev_identifiers := ["vpncltmon"]
     dev_manufacturer := vpn_type
     dev_name := "VPN Client Monitor" })

/-- `remove_discovery` (lines 231-236): publish `json.dumps({})`, i.e.
the two-character string rendering the empty JSON object, retained with
qos 0, to the departed client's discovery topic. -/
def remove_discovery (discoveryPref client_name : String) : PubMsg :=
  { topic := discoveryTopic discoveryPref client_name
    payload := "\x7b\x7d"
    qos := 0
    retain := true }

/-- Python `topic_prefix.endswith('/')`: true iff the last character is
a slash. -/
def pyEndsWithSlash (p : String) : Bool :=
  p.data.getLast? == some '/'

/-- Constructor normalization of `topic_prefix` (lines 43-47): keep it
if it already ends in a slash, otherwise append one. -/
def mpcTopicPref (tp : String) : String :=
  if pyEndsWithSlash tp then tp else tp ++ "/"

/-- The constructor stores `discovery_topic_prefix` unchanged (line 41). -/
def mpcDiscoveryPref (dp : String) : String := dp

/-- `f'{self.topic_prefix}status'` (lines 57, 125, 221). -/
def statusTopic (tpf : String) : String := tpf ++ "status"

/-! ## Helper lemmas -/

lemma collectClients_stop (raw : List String) (count : ℚ) (stride : ℕ) (x pos : ℕ)
    (hc : ¬ (x : ℚ) < count) :
    collectClients raw count stride x pos = Except.ok [] := by
  rw [collectClients]
  simp [hc]

lemma collectClients_step (raw : List String) (count : ℚ) (stride : ℕ) (x pos : ℕ)
    (hc : (x : ℚ) < count) (hp : pos < raw.length) :
    collectClients raw count stride x pos =
      (collectClients raw count stride (x + 1) (pos + stride)).map (raw.getD pos "" :: ·) := by
  rw [collectClients]
  rw [dif_pos hc]
  have hg : raw.get? pos = some (raw.getD pos "") := by
    rw [List.get?_eq_get hp]
    simp [List.getElem?_eq_getElem hp]
  rw [hg]

lemma collectClients_exact (raw : List String) (count : ℚ) (stride : ℕ) :
    ∀ (k x pos : ℕ), ((x + k : ℕ) : ℚ) = count →
      (∀ j, j < k → pos + stride * j < raw.length) →
      collectClients raw count stride x pos =
        Except.ok ((List.range k).map fun j => raw.getD (pos + stride * j) "") := by
  intro k
  induction k with
  | zero =>
    intro x pos hcount _
    have : ¬ (x : ℚ) < count := by
      rw [← hcount]; push_cast; simp
    rw [collectClients_stop _ _ _ _ _ this]
    simp
  | succ k ih =>
    intro x pos hcount hbound
    have hlt : (x : ℚ) < count := by
      rw [← hcount]; push_cast; linarith
    have hp : pos < raw.length := by
      have := hbound 0 (Nat.succ_pos k)
      simpa using this
    rw [collectClients_step _ _ _ _ _ hlt hp]
    rw [ih (x + 1) (pos + stride) (by rw [← hcount]; push_cast; ring)
      (by intro j hj
          have := hbound (j + 1) (by omega)
          calc pos + stride + stride * j = pos + stride * (j + 1) := by ring
            _ < raw.length := this)]
    have harith : ∀ j : ℕ, pos + stride + stride * j = pos + stride * (j + 1) := by
      intro j; ring
    simp only [Except.map, List.range_succ_eq_map, List.map_cons, List.map_map,
      Function.comp, Nat.succ_eq_add_one, Nat.mul_zero, Nat.add_zero, harith]
    rfl

/-! ## Claim theorems -/

/-- C3: for every listing output that tokenizes to a well-formed
WireGuard-shaped table (13 header tokens plus N records of 7 tokens,
i.e. `raw.length = 13 + 7 * N`), `get_client_list` with variant
"WireGuard" succeeds and returns exactly N client identifiers, the i-th
being the token at position `9 + 7 * i`, i.e. in the rows' order. -/
theorem wireguard_table_rows (raw : List String) (N : ℕ) (h : raw.length = 13 + 7 * N) :
    getClientList "WireGuard" raw =
      Except.ok ((List.range N).map fun i => raw.getD (9 + 7 * i) "") := by
  unfold getClientList
  rw [if_pos rfl]
  exact collectClients_exact raw _ 7 N 0 9
    (by rw [h]; push_cast; ring)
    (by intro j hj; omega)

/-- Witness for C3: a concrete 20-token table (13 header tokens plus one
7-token record whose name token, position 9, is "alice") yields exactly
the one-element list ["alice"]. -/
theorem wireguard_table_rows_witness :
    (["h0","h1","h2","h3","h4","h5","h6","h7","h8","alice",
      "x1","x2","x3","x4","x5","x6","t1","t2","t3","t4"] : List String).length = 13 + 7 * 1 ∧
    getClientList "WireGuard"
      ["h0","h1","h2","h3","h4","h5","h6","h7","h8","alice",
       "x1","x2","x3","x4","x5","x6","t1","t2","t3","t4"] = Except.ok ["alice"] := by
  refine ⟨by decide, ?_⟩
  rw [wireguard_table_rows
    ["h0","h1","h2","h3","h4","h5","h6","h7","h8","alice",
     "x1","x2","x3","x4","x5","x6","t1","t2","t3","t4"] 1 (by decide)]
  rfl

/-- C4: the code contradicts the claim.  On a 17-token WireGuard listing
(13 header tokens plus 4 stray tokens, not a whole number of 7-token
records) `get_client_list` raises no error of any kind: the float loop
bound `(17 - 13) / 7 = 4/7` makes the loop run once and the function
returns the token at position 9 — a header token — as a "client". -/
theorem wireguard_malformed_returns_ok :
    getClientList "WireGuard"
      ["t0","t1","t2","t3","t4","t5","t6","t7","t8","t9",
       "t10","t11","t12","t13","t14","t15","t16"] = Except.ok ["t9"] := by
  unfold getClientList
  rw [if_pos rfl]
  have hlen : (((["t0","t1","t2","t3","t4","t5","t6","t7","t8","t9",
      "t10","t11","t12","t13","t14","t15","t16"] : List String).length : ℚ)) = 17 := by
    norm_num
  rw [hlen]
  rw [collectClients_step _ _ _ _ _ (by norm_num) (by norm_num)]
  rw [collectClients_stop _ _ _ _ _ (by norm_num)]
  rfl

lemma exceptBind_ok {α β ε : Type} (a : α) (f : α → Except ε β) :
    (Except.ok a >>= f : Except ε β) = f a := rfl

lemma idx_some {record : List String} {i : ℕ} {a : String}
    (h : record.get? i = some a) : idx record i = Except.ok a := by
  unfold idx
  rw [h]

lemma publishAttrsGo_openvpn_noRecords (clients : List String) :
    ∀ prev, publishAttrsGo "OpenVPN" (fun _ => []) clients prev =
      (clients.flatMap fun n =>
        [Event.pubAttr n (AttrVal.obj [("client", n), ("remote_ip", ""), ("local_ip", ""),
            ("received", ""), ("sent", ""), ("seen", "")]),
         Event.pubState n "Not Connected"], none) := by
  induction clients with
  | nil => intro prev; rfl
  | cons n rest ih =>
    intro prev
    have hstep : clientAttrStep "OpenVPN" n [] prev =
        Except.ok (AttrVal.obj [("client", n), ("remote_ip", ""), ("local_ip", ""),
            ("received", ""), ("sent", ""), ("seen", "")], "Not Connected") := rfl
    simp [publishAttrsGo, hstep, ih]

/-- C5 counterexample: the claim fails for the WireGuard variant.  With a
zero-record (empty) per-client query result, `publish_client_attributes`
reads `client_record[5]` unconditionally and raises `IndexError`
(index 5); it publishes nothing for the client instead of an
"unattached" attribute set. -/
theorem wireguard_zero_records_index_error :
    clientAttrStep "WireGuard" "alice" [] (AttrVal.raw "", "") =
      Except.error (PyErr.indexError 5)
  ∧ publishClientAttributesEvents "WireGuard" (fun _ => []) ["alice"] =
      ([], some (PyErr.indexError 5)) :=
  ⟨rfl, rfl⟩

/-- C5, amended: only the OpenVPN variant tolerates zero matching
records.  For every client list, with the per-client query returning no
record, the OpenVPN branch publishes for each client the
"unattached" attribute object (empty addresses and counters) and the
state "Not Connected", and no failure occurs; the WireGuard branch
instead raises `IndexError` (see the counterexample theorem). -/
theorem openvpn_zero_records_unattached (clients : List String) (name : String)
    (prev : AttrVal × String) :
    clientAttrStep "OpenVPN" name [] prev =
      Except.ok (AttrVal.obj [("client", name), ("remote_ip", ""), ("local_ip", ""),
          ("received", ""), ("sent", ""), ("seen", "")], "Not Connected")
  ∧ publishClientAttributesEvents "OpenVPN" (fun _ => []) clients =
      (clients.flatMap fun n =>
        [Event.pubAttr n (AttrVal.obj [("client", n), ("remote_ip", ""), ("local_ip", ""),
            ("received", ""), ("sent", ""), ("seen", "")]),
         Event.pubState n "Not Connected"], none) :=
  ⟨rfl, publishAttrsGo_openvpn_noRecords clients _⟩

/-- C6: for every WireGuard attribute record whose connectivity field
(token 5) is the "(not" marker and that has tokens at positions 0-6, the
computed state string is the two-token phrase `record[5] + " " + record[6]`
(and the published `seen` field likewise), not the five-token timestamp
composition of tokens 5-9. -/
theorem wg_marker_two_token_state (name r0 r1 r2 r3 r4 r6 : String)
    (record : List String) (prev : AttrVal × String)
    (h0 : record.get? 0 = some r0) (h1 : record.get? 1 = some r1)
    (h2 : record.get? 2 = some r2) (h3 : record.get? 3 = some r3)
    (h4 : record.get? 4 = some r4) (h5 : record.get? 5 = some "(not")
    (h6 : record.get? 6 = some r6) :
    clientAttrStep "WireGuard" name record prev =
      Except.ok (AttrVal.obj [("client", r0), ("remote_ip", r1), ("local_ip", r2),
          ("received", r3), ("sent", r4), ("seen", "(not" ++ " " ++ r6)],
        "(not" ++ " " ++ r6) := by
  simp [clientAttrStep, idx_some h0, idx_some h1, idx_some h2, idx_some h3,
    idx_some h4, idx_some h5, idx_some h6, exceptBind_ok]

/-- Witness for C6: a concrete seven-token record with the marker in
token 5 yields the state "(not connected)". -/
theorem wg_marker_two_token_state_witness :
    clientAttrStep "WireGuard" "alice"
      ["alice", "1.2.3.4", "10.6.0.2", "100B", "50B", "(not", "connected)"]
      (AttrVal.raw "", "") =
      Except.ok (AttrVal.obj [("client", "alice"), ("remote_ip", "1.2.3.4"),
          ("local_ip", "10.6.0.2"), ("received", "100B"), ("sent", "50B"),
          ("seen", "(not connected)")],
        "(not connected)" ) := by
  have h := wg_marker_two_token_state "alice" "alice" "1.2.3.4" "10.6.0.2" "100B" "50B"
    "connected)" ["alice", "1.2.3.4", "10.6.0.2", "100B", "50B", "(not", "connected)"]
    (AttrVal.raw "", "") rfl rfl rfl rfl rfl rfl rfl
  exact h

/-- C7: for every client identifier and discovery prefix,
`remove_discovery` publishes to the client's discovery topic
`{discovery_topic_prefix}{client_id}/config` a retained message whose
payload is always the literal empty JSON object (independent of
anything previously published: the function takes no prior payload),
and that topic coincides with the one `publish_discovery` uses. -/
theorem remove_discovery_empty_retained (dp c vpn tpf : String) :
    (remove_discovery dp c).payload = "\x7b\x7d"
  ∧ (remove_discovery dp c).retain = true
  ∧ (remove_discovery dp c).topic = dp ++ c ++ "/config"
  ∧ (remove_discovery dp c).topic = (publish_discovery vpn tpf dp c).1 :=
  ⟨rfl, rfl, rfl, rfl⟩

/-- C9 counterexample: the claim's ordering fails on the code.  With a
successful acknowledgment (rc = 0) and known client list ["alice"],
`on_connect` performs `start_period_timer()` FIRST, then publishes
"online", then registers the client — the claim requires the "online"
publish first and the scheduler start last. -/
theorem on_connect_order_counterexample :
    onConnectEvents 0 ["alice"] =
      [Event.timerStart, Event.pubStatus "online", Event.register "alice"]
  ∧ (onConnectEvents 0 ["alice"]).head? ≠ some (Event.pubStatus "online") := by
  constructor
  · rfl
  · decide

/-- C9, amended: on a successful connection acknowledgment (rc = 0) the
controller starts the periodic scheduler first, then publishes the
retained "online" status, then publishes a discovery registration for
every currently known client, in list order; it performs no
attribute/state publishing in this handler. -/
theorem on_connect_event_order (clients : List String) :
    onConnectEvents 0 clients =
      Event.timerStart :: Event.pubStatus "online" :: clients.map Event.register
  ∧ ∀ c p, Event.pubAttr c p ∉ onConnectEvents 0 clients := by
  constructor
  · simp [onConnectEvents]
  · intro c p
    simp [onConnectEvents]

/-- C1: for all duplicate-free snapshots A (previous) and B (current),
the diff of the reconciliation step satisfies: arrived and departed are
disjoint, B equals (A minus departed) union arrived as sets, and arrived
is a sublist of B (i.e. listed in B's order). -/
theorem diff_partition (A B : List String) (hA : A.Nodup) (hB : B.Nodup) :
    (∀ c, ¬ (c ∈ newClients A B ∧ c ∈ removedClients A B))
  ∧ (∀ c, c ∈ B ↔ ((c ∈ A ∧ c ∉ removedClients A B) ∨ c ∈ newClients A B))
  ∧ (newClients A B).Sublist B := by
  refine ⟨?_, ?_, List.filter_sublist _⟩
  · rintro c ⟨h1, h2⟩
    simp only [newClients, removedClients, List.mem_filter, decide_eq_true_eq] at h1 h2
    exact h1.2 h2.1
  · intro c
    simp only [newClients, removedClients, List.mem_filter, decide_eq_true_eq]
    tauto

/-- Witness for C1 at previous ["alice","carl"], current ["alice","bob"]. -/
theorem diff_partition_witness :
    (∀ c, ¬ (c ∈ newClients ["alice","carl"] ["alice","bob"]
          ∧ c ∈ removedClients ["alice","carl"] ["alice","bob"]))
  ∧ (∀ c, c ∈ (["alice","bob"] : List String) ↔
        ((c ∈ (["alice","carl"] : List String)
            ∧ c ∉ removedClients ["alice","carl"] ["alice","bob"])
          ∨ c ∈ newClients ["alice","carl"] ["alice","bob"]))
  ∧ (newClients ["alice","carl"] ["alice","bob"]).Sublist ["alice","bob"] :=
  diff_partition ["alice","carl"] ["alice","bob"] (by decide) (by decide)

lemma publishAttrsGo_no_discovery (vpn : String) (attrOf : String → List String) (c : String) :
    ∀ (names : List String) (prev : AttrVal × String),
      (publishAttrsGo vpn attrOf names prev).1.count (Event.register c) = 0
    ∧ (publishAttrsGo vpn attrOf names prev).1.count (Event.retract c) = 0 := by
  intro names
  induction names with
  | nil => intro prev; simp [publishAttrsGo]
  | cons n rest ih =>
    intro prev
    cases hstep : clientAttrStep vpn n (attrOf n) prev with
    | error e => simp [publishAttrsGo, hstep]
    | ok ds =>
      obtain ⟨d, s⟩ := ds
      have hr := ih (d, s)
      simp [publishAttrsGo, hstep, List.count_cons, hr.1, hr.2]

lemma periodTimeout_count_eq (stored cur : List String) (vpn : String)
    (attrOf : String → List String) (e : Event) (he : e ≠ Event.timerStart) :
    (periodTimeoutEvents stored cur vpn attrOf).1.count e =
      (reconcileDiscoveryEvents stored cur).count e
      + (publishAttrsGo vpn attrOf cur (AttrVal.raw "", "")).1.count e := by
  unfold periodTimeoutEvents
  cases h2 : (publishAttrsGo vpn attrOf cur (AttrVal.raw "", "")).2 with
  | none => simp [h2, List.count_append, List.count_cons, he]
  | some e' => simp [h2, List.count_append]

lemma register_injective : Function.Injective Event.register := by
  intro a b h
  injection h

lemma retract_injective : Function.Injective Event.retract := by
  intro a b h
  injection h

lemma reconcileDiscovery_count_register (stored cur : List String) (hc : cur.Nodup)
    (c : String) :
    (reconcileDiscoveryEvents stored cur).count (Event.register c)
      = if c ∈ newClients stored cur then 1 else 0 := by
  unfold reconcileDiscoveryEvents
  by_cases heq : cur = stored
  · rw [if_pos heq]
    rw [if_neg (by subst heq; simp [newClients])]
    simp
  · rw [if_neg heq, List.count_append]
    have h1 : ((removedClients stored cur).map Event.retract).count (Event.register c) = 0 := by
      rw [List.count_eq_zero]
      simp
    rw [h1, Nat.add_zero]
    rw [List.count_map_of_injective _ Event.register register_injective c]
    by_cases hm : c ∈ newClients stored cur
    · rw [if_pos hm]
      exact List.count_eq_one_of_mem (hc.filter _) hm
    · rw [if_neg hm]
      exact List.count_eq_zero_of_not_mem hm

lemma reconcileDiscovery_count_retract (stored cur : List String) (hs : stored.Nodup)
    (c : String) :
    (reconcileDiscoveryEvents stored cur).count (Event.retract c)
      = if c ∈ removedClients stored cur then 1 else 0 := by
  unfold reconcileDiscoveryEvents
  by_cases heq : cur = stored
  · rw [if_pos heq]
    rw [if_neg (by subst heq; simp [removedClients])]
    simp
  · rw [if_neg heq, List.count_append]
    have h1 : ((newClients stored cur).map Event.register).count (Event.retract c) = 0 := by
      rw [List.count_eq_zero]
      simp
    rw [h1, Nat.zero_add]
    rw [List.count_map_of_injective _ Event.retract retract_injective c]
    by_cases hm : c ∈ removedClients stored cur
    · rw [if_pos hm]
      exact List.count_eq_one_of_mem (hs.filter _) hm
    · rw [if_neg hm]
      exact List.count_eq_zero_of_not_mem hm

/-- C2: in every reconciliation cycle over duplicate-free snapshots,
`publish_discovery` (register) is invoked exactly once for each client in
arrived (`new_clients`) and for no other client, and `remove_discovery`
(retract) exactly once for each client in departed (`removed_clients`)
and for no other client — counted over the cycle's whole event trace,
whatever the attribute queries return. -/
theorem reconcile_register_retract_once (stored cur : List String) (vpn : String)
    (attrOf : String → List String) (c : String) (hs : stored.Nodup) (hc : cur.Nodup) :
    ((periodTimeoutEvents stored cur vpn attrOf).1.count (Event.register c)
        = if c ∈ newClients stored cur then 1 else 0)
  ∧ ((periodTimeoutEvents stored cur vpn attrOf).1.count (Event.retract c)
        = if c ∈ removedClients stored cur then 1 else 0) := by
  constructor
  · rw [periodTimeout_count_eq stored cur vpn attrOf _ (by simp)]
    rw [(publishAttrsGo_no_discovery vpn attrOf c cur _).1, Nat.add_zero]
    exact reconcileDiscovery_count_register stored cur hc c
  · rw [periodTimeout_count_eq stored cur vpn attrOf _ (by simp)]
    rw [(publishAttrsGo_no_discovery vpn attrOf c cur _).2, Nat.add_zero]
    exact reconcileDiscovery_count_retract stored cur hs c

/-- Witness for C2, the spec's scenario: previous ["alice"], current
["alice","bob"] — register("bob") exactly once, retract("alice") (the
only conceivable retraction) not at all. -/
theorem reconcile_register_retract_once_witness :
    ((periodTimeoutEvents ["alice"] ["alice","bob"] "OpenVPN" (fun _ => [])).1.count
        (Event.register "bob") = 1)
  ∧ ((periodTimeoutEvents ["alice"] ["alice","bob"] "OpenVPN" (fun _ => [])).1.count
        (Event.retract "alice") = 0) := by
  have h1 := (reconcile_register_retract_once ["alice"] ["alice","bob"] "OpenVPN"
    (fun _ => []) "bob" (by decide) (by decide)).1
  have h2 := (reconcile_register_retract_once ["alice"] ["alice","bob"] "OpenVPN"
    (fun _ => []) "alice" (by decide) (by decide)).2
  constructor
  · rw [h1, if_pos (by decide)]
  · rw [h2, if_neg (by decide)]

lemma stringDataInj {s t : String} (h : s.data = t.data) : s = t :=
  String.ext h

lemma appendHeadEq {l1 l2 x y : List Char} (h : l1 ++ x = l2 ++ y)
    (h1 : 0 < l1.length) (h2 : 0 < l2.length) : l1.get? 0 = l2.get? 0 := by
  rw [List.get?_eq_getElem?, List.get?_eq_getElem?,
    ← List.getElem?_append_left h1, ← List.getElem?_append_left h2, h]

/-- C8: the discovery payload's `unique_id` is
`f'VPN{vpn_type}{client_name}Client'`, a deterministic function of the
backend variant and client identifier, and over the two supported
variants it is injective: equal unique_id strings force equal variant
and equal client identifier. -/
theorem unique_id_injective (v1 v2 c1 c2 tp1 tp2 dp1 dp2 : String)
    (hv1 : v1 = "WireGuard" ∨ v1 = "OpenVPN")
    (hv2 : v2 = "WireGuard" ∨ v2 = "OpenVPN")
    (h : (publish_discovery v1 tp1 dp1 c1).2.unique_id
        = (publish_discovery v2 tp2 dp2 c2).2.unique_id) :
    v1 = v2 ∧ c1 = c2 := by
  have hdata : "VPN".data ++ (v1.data ++ (c1.data ++ "Client".data))
      = "VPN".data ++ (v2.data ++ (c2.data ++ "Client".data)) := by
    have hd := congrArg String.data h
    simpa [publish_discovery, List.append_assoc] using hd
  have hv : v1.data ++ (c1.data ++ "Client".data)
      = v2.data ++ (c2.data ++ "Client".data) := List.append_cancel_left hdata
  have hsame : v1.data = v2.data → v1 = v2 ∧ c1 = c2 := by
    intro hveq
    refine ⟨stringDataInj hveq, ?_⟩
    rw [hveq] at hv
    have hcc := List.append_cancel_left hv
    have hlen : c1.data.length = c2.data.length := by
      have := congrArg List.length hcc
      simp only [List.length_append] at this
      omega
    exact stringDataInj (List.append_inj hcc hlen).1
  rcases hv1 with h1 | h1 <;> rcases hv2 with h2 | h2 <;> subst h1 <;> subst h2
  · exact hsame rfl
  · exact absurd (appendHeadEq hv (by decide) (by decide)) (by decide)
  · exact absurd (appendHeadEq hv (by decide) (by decide)) (by decide)
  · exact hsame rfl

/-- Witness for C8 at variant "WireGuard" and client "alice". -/
theorem unique_id_injective_witness :
    ("WireGuard" : String) = "WireGuard" ∧ ("alice" : String) = "alice" :=
  unique_id_injective "WireGuard" "WireGuard" "alice" "alice" "t/" "t/" "d" "d"
    (Or.inl rfl) (Or.inl rfl) rfl

/-- C10: the constructor stores `topic_prefix` ending in exactly one
added slash when it did not already end in one and unchanged when it
did (so every topic built from the stored field starts from a
'/'-terminated prefix), while `discovery_topic_prefix` is stored
unnormalized and the discovery topic is its direct concatenation with
the client name — a separator precedes the client name only if the
configured discovery prefix already ends in '/'. -/
theorem topic_prefix_normalization (tp dp c : String) :
    (mpcTopicPref tp).data.getLast? = some '/'
  ∧ (pyEndsWithSlash tp = true → mpcTopicPref tp = tp)
  ∧ (pyEndsWithSlash tp = false → mpcTopicPref tp = tp ++ "/")
  ∧ mpcDiscoveryPref dp = dp
  ∧ discoveryTopic (mpcDiscoveryPref dp) c = dp ++ c ++ "/config" := by
  refine ⟨?_, ?_, ?_, rfl, rfl⟩
  · unfold mpcTopicPref
    by_cases h : pyEndsWithSlash tp
    · rw [if_pos h]
      unfold pyEndsWithSlash at h
      simpa using h
    · rw [if_neg h]
      rw [String.data_append]
      rw [show ("/" : String).data = ['/'] from rfl]
      exact List.getLast?_concat _
  · intro h
    simp [mpcTopicPref, h]
  · intro h
    simp [mpcTopicPref, h]

/-- Witness for C10: a prefix already ending in '/' is kept, one without
gets exactly one slash appended. -/
theorem topic_prefix_normalization_witness :
    mpcTopicPref "home/nodes/sensor/pivpn/" = "home/nodes/sensor/pivpn/"
  ∧ mpcTopicPref "home/nodes/sensor/pivpn" = "home/nodes/sensor/pivpn" ++ "/" :=
  ⟨(topic_prefix_normalization "home/nodes/sensor/pivpn/" "d" "c").2.1 (by decide),
   (topic_prefix_normalization "home/nodes/sensor/pivpn" "d" "c").2.2.1 (by decide)⟩
